import Mathlib

/-!
Verification of the agent-loop subsystem of the `ap` variant
(src/ap/either.py, actions.py, thread.py, inmemory.py, agent.py,
drivers/factory.py), via a shallow embedding.

Conventions of the embedding:
* Python numbers (floats used only on exact small values in the claims)
  are modelled as rationals.
* A Python value that may be a number, a string or None is modelled as
  `Option Val` with `none` playing the role of Python None.
* Python code that may raise is modelled in `Except String`, the error
  carrying the exception message; an `Except.error` that the loop does
  not catch models an exception propagating out of `loop`.
* The driver step function receives the call index (a fake stateful
  driver is a function of how many times it has been called) and the
  current thread; the fixed context argument is absorbed.
-/

namespace Ap

/-- Two-variant result type from src/ap/either.py: `Left` holds an error,
`Right` holds a success value. -/
inductive Either (T E : Type) where
  | Left (error : E)
  | Right (value : T)
deriving DecidableEq

/-- Method `map` of Either: on Right, apply the function to the value; on
Left, return the Left unchanged (errors propagate). -/
def Either.map {T E A : Type} : Either T E → (T → A) → Either A E
  | .Left e, _ => .Left e
  | .Right v, func => .Right (func v)

/-- Method `flat_map` of Either: on Right, return the Either produced by
the function; on Left, return the Left unchanged. -/
def Either.flat_map {T E A : Type} : Either T E → (T → Either A E) → Either A E
  | .Left e, _ => .Left e
  | .Right v, func => func v

/-- Method `fold` of Either: apply `on_left` to the error of a Left and
`on_right` to the value of a Right; exactly one handler is applied. -/
def Either.fold {T E R : Type} : Either T E → (E → R) → (T → R) → R
  | .Left e, on_left, _ => on_left e
  | .Right v, _, on_right => on_right v

/-- Method `is_right` of Either. -/
def Either.is_right {T E : Type} : Either T E → Bool
  | .Left _ => false
  | .Right _ => true

/-- Method `is_left` of Either. -/
def Either.is_left {T E : Type} : Either T E → Bool
  | .Left _ => true
  | .Right _ => false

/-- A Python value carried by an action result or a Done output: a number
or a string. Python None is modelled as `Option Val` being `none`. -/
inductive Val where
  | num (q : ℚ)
  | str (s : String)
deriving DecidableEq

/-- The closed set of action variants of src/ap/actions.py, each with its
own fields: arithmetic variants carry two numeric operands, AskUser a
request string, Done an optional output (number, string or None). -/
inductive ActionKind where
  | add (a b : ℚ)
  | subtract (a b : ℚ)
  | multiply (a b : ℚ)
  | divide (a b : ℚ)
  | askUser (request : String)
  | done (output : Option Val)
deriving DecidableEq

/-- An action instance: the common fields of class `Action` in
src/ap/actions.py (`chain_of_thought`, the result slot `r`, initialised
to Python None i.e. `none`) plus the variant-specific fields bundled in
`kind`. -/
structure Action where
  chain_of_thought : String := ""
  kind : ActionKind
  r : Option Val := none
deriving DecidableEq

/-- The user-interaction capability: `io.prompt`, a function from the
request text to the value the user enters (possibly Python None). -/
def PromptFn : Type := String → Option Val

/-- Embedding of the `_compute_result` overrides of the six variants:
Add/Subtract/Multiply return the arithmetic result; Divide raises
ValueError when the divisor equals zero, else returns the quotient;
AskUser raises when no `io` capability was passed, else returns what
`io.prompt` gives; Done returns its `output` field (possibly None). -/
def computeResult : ActionKind → Option PromptFn → Except String (Option Val)
  | .add a b, _ => .ok (some (.num (a + b)))
  | .subtract a b, _ => .ok (some (.num (a - b)))
  | .multiply a b, _ => .ok (some (.num (a * b)))
  | .divide a b, _ =>
      if b = 0 then .error "Division by zero is not allowed."
      else .ok (some (.num (a / b)))
  | .askUser request, io =>
      match io with
      | none => .error "IO object must be provided to execute AskUser action"
      | some prompt => .ok (prompt request)
  | .done output, _ => .ok output

/-- Method `execute` of class Action (one call): when the slot `r` is
None, run `_compute_result` and store what it returns back into `r`;
otherwise skip the computation. Returns the updated action, the value
`execute` returns (the slot after the call), and how many times
`_compute_result` ran during this call (0 or 1). An `Except.error`
models the computation raising. -/
def Action.executeSt (act : Action) (io : Option PromptFn) :
    Except String (Action × Option Val × Nat) :=
  match act.r with
  | some v => .ok (act, some v, 0)
  | none =>
      match computeResult act.kind io with
      | .error e => .error e
      | .ok v => .ok ({ act with r := v }, v, 1)

/-- Two consecutive calls of `execute` on the same action with the same
capabilities: returns the value of each call and the total number of
times `_compute_result` ran across both calls. -/
def Action.executeTwice (act : Action) (io : Option PromptFn) :
    Except String (Option Val × Option Val × Nat) :=
  match act.executeSt io with
  | .error e => .error e
  | .ok (act1, v1, c1) =>
      match act1.executeSt io with
      | .error e => .error e
      | .ok (_, v2, c2) => .ok (v1, v2, c1 + c2)

/-- Property `result` of class Action: the slot `r` when it is not None,
else the sentinel string "Not yet calculated". -/
def Action.result (act : Action) : Val :=
  match act.r with
  | some v => v
  | none => .str "Not yet calculated"

/-- The Python class name of an action variant, as interpolated into the
loop error message via `__class__.__name__`. -/
def Action.className (act : Action) : String :=
  match act.kind with
  | .add _ _ => "Add"
  | .subtract _ _ => "Subtract"
  | .multiply _ _ => "Multiply"
  | .divide _ _ => "Divide"
  | .askUser _ => "AskUser"
  | .done _ => "Done"

/-- Whether the action is the terminal Done variant (the
`isinstance(typed_action, actions.Done)` check of the loop). -/
def Action.is_done (act : Action) : Bool :=
  match act.kind with
  | .done _ => true
  | _ => false

/-- A conversation thread from src/ap/thread.py: id, user query, and the
ordered list of executed actions. -/
structure Thread where
  id : String
  query : String
  actions : List Action
deriving DecidableEq

/-- Method `add` of Thread: append the action to the ordered history. -/
def Thread.add (t : Thread) (action : Action) : Thread :=
  { t with actions := t.actions ++ [action] }

/-- The kwargs built by `execute_action` of src/ap/agent.py: the
user-interaction capability `io` is supplied only when the action is an
AskUser. -/
def actionIo (cli : PromptFn) (action : Action) : Option PromptFn :=
  match action.kind with
  | .askUser _ => some cli
  | _ => none

/-- Function `execute_action` of src/ap/agent.py: build the kwargs, then
call the action `execute` method. Returns the executed
(result-populated) action, or the exception message. -/
def execute_action (cli : PromptFn) (action : Action) : Except String Action :=
  match action.executeSt (actionIo cli action) with
  | .error e => .error e
  | .ok (act1, _, _) => .ok act1

/-- The error message built by the loop when executing an action raises:
it names the action class and the exception text. -/
def execErrMsg (action : Action) (e : String) : String :=
  "Error executing action " ++ action.className ++ ": " ++ e

/-- The error message returned when the iteration budget is exhausted;
it names the configured limit. -/
def exhaustMsg (max_actions : Nat) : String :=
  "Exceeded maximum of " ++ toString max_actions ++
    " actions without reaching completion"

/-- A driver step function, abstracted: given the call index (modelling
the internal state of a fake driver) and the current thread, produce
Either the next action or an error string. -/
def StepFn : Type := Nat → Thread → Either Action String

/-- Driver names registered in the DRIVERS dictionary of
src/ap/drivers/factory.py. -/
def DRIVER_NAMES : List String := ["openai", "anthropic"]

/-- The ValueError message raised by `get_driver` for an unregistered
driver name (the Python rendering of the list of registry keys). -/
def unknownDriverMsg (name : String) : String :=
  "Unknown driver: " ++ name ++
    ". Available drivers: [\x27openai\x27, \x27anthropic\x27]"

/-- Function `get_driver` of src/ap/drivers/factory.py: when no name is
given use the active driver from Config; when the name is not a key of
the registry raise ValueError (modelled as `Except.error`); otherwise
return the registered step function. The registry entries themselves
(network code) are abstracted as a function from registered names to
step functions. -/
def get_driver (driver_name : Option String) (active_driver : String)
    (registry : String → StepFn) : Except String StepFn :=
  let name := driver_name.getD active_driver
  if DRIVER_NAMES.contains name then .ok (registry name)
  else .error (unknownDriverMsg name)

/-- The loop of src/ap/agent.py, from iteration `iteration` with `fuel`
iterations of the `range(max_actions)` budget left. Each iteration:
look up the driver (an `Except.error` here is the uncaught ValueError of
`get_driver`), ask it for the next action, return its Left unchanged on
driver failure, execute the action catching any exception into a Left
naming the action class, append the executed action to the thread, stop
with Right on Done, otherwise continue; when the budget runs out return
a Left naming the limit. The final thread is returned alongside the
result (in the source the thread is mutated in place). -/
def loopFrom (drv : Except String StepFn) (cli : PromptFn) (max_actions : Nat) :
    Nat → Nat → Thread → Except String (Either Action String × Thread)
  | 0, _, thread => .ok (.Left (exhaustMsg max_actions), thread)
  | fuel + 1, iteration, thread =>
      match drv with
      | .error e => .error e
      | .ok step =>
          match step iteration thread with
          | .Left e => .ok (.Left e, thread)
          | .Right action =>
              match execute_action cli action with
              | .error e => .ok (.Left (execErrMsg action e), thread)
              | .ok executed =>
                  let thread1 := thread.add executed
                  if executed.is_done then .ok (.Right executed, thread1)
                  else loopFrom drv cli max_actions fuel (iteration + 1) thread1

/-- Function `loop` of src/ap/agent.py with the driver lookup result and
the `max_actions` configuration value supplied explicitly. -/
def loop (drv : Except String StepFn) (cli : PromptFn) (max_actions : Nat)
    (thread : Thread) : Except String (Either Action String × Thread) :=
  loopFrom drv cli max_actions max_actions 0 thread

/-- The context fields the loop reads: the driver name carried by the
context (None models a context without the attribute), the active driver
name held by Config, the driver registry, and the cli capability. -/
structure Ctx where
  driver : Option String
  active_driver : String
  registry : String → StepFn
  prompt : PromptFn

/-- Function `loop` of src/ap/agent.py run against a context: the driver
is looked up through `get_driver` exactly as at line 113 of agent.py. -/
def loopCtx (ctx : Ctx) (max_actions : Nat) (thread : Thread) :
    Except String (Either Action String × Thread) :=
  loop (get_driver ctx.driver ctx.active_driver ctx.registry) ctx.prompt
    max_actions thread

/-- The class-level `threads` mapping of ThreadInMemoryStore in
src/ap/inmemory.py, modelled as a partial map from thread id to Thread.
In the source it is a class attribute: instances never assign a
`threads` attribute of their own, they only mutate this dictionary in
place, so every instance reads and writes the same mapping. -/
def ThreadsMap : Type := String → Option Thread

/-- A ThreadInMemoryStore instance: its only per-instance state is the
lock created in `__init__` (irrelevant to the data), here a tag; the
`threads` mapping lives at class level and is passed explicitly. -/
structure ThreadInMemoryStore where
  lockId : Nat
deriving DecidableEq

/-- The NotFound message of `ThreadInMemoryStore.get`. -/
def notFoundMsg (thread_id : String) : String :=
  "Thread with ID " ++ thread_id ++ " not found in store."

/-- Method `add` of ThreadInMemoryStore: insert the thread into the
class-level mapping under its pre-generated id (replacing any previous
entry for that id). The instance is irrelevant to the data. -/
def ThreadInMemoryStore.add (_self : ThreadInMemoryStore) (shared : ThreadsMap)
    (t : Thread) : ThreadsMap :=
  fun i => if i = t.id then some t else shared i

/-- Method `get` of ThreadInMemoryStore: Left with a NotFound message
when the id is absent from the class-level mapping, Right of the stored
thread otherwise. -/
def ThreadInMemoryStore.get (_self : ThreadInMemoryStore) (shared : ThreadsMap)
    (thread_id : String) : Either Thread String :=
  match shared thread_id with
  | none => .Left (notFoundMsg thread_id)
  | some t => .Right t

/-- Method `clear` of ThreadInMemoryStore: remove every entry of the
class-level mapping. -/
def ThreadInMemoryStore.clear (_self : ThreadInMemoryStore)
    (_shared : ThreadsMap) : ThreadsMap :=
  fun _ => none

/-- A successful call of `execute` leaves the variant fields of the
action unchanged: only the result slot is written. -/
theorem executeSt_kind {a a1 : Action} {io : Option PromptFn} {v : Option Val}
    {c : Nat} (h : a.executeSt io = .ok (a1, v, c)) : a1.kind = a.kind := by
  unfold Action.executeSt at h
  split at h
  · simp only [Except.ok.injEq, Prod.mk.injEq] at h
    obtain ⟨h1, -⟩ := h
    rw [← h1]
  · split at h
    · simp at h
    · simp only [Except.ok.injEq, Prod.mk.injEq] at h
      obtain ⟨h1, -⟩ := h
      rw [← h1]

/-- A successful `execute_action` call preserves the action variant. -/
theorem execute_action_kind {cli : PromptFn} {a a1 : Action}
    (h : execute_action cli a = .ok a1) : a1.kind = a.kind := by
  unfold execute_action at h
  cases hst : a.executeSt (actionIo cli a) with
  | error e => rw [hst] at h; simp at h
  | ok t =>
      obtain ⟨act1, v, c⟩ := t
      rw [hst] at h
      simp only [Except.ok.injEq] at h
      exact h ▸ executeSt_kind hst

/-- When the driver always returns an action that executes successfully
and is never the Done variant, the loop consumes its whole budget: from
any iteration with `fuel` budget left it returns the exhaustion message
and appends exactly `fuel` actions to the thread. -/
theorem loopFrom_exhaust (step : StepFn) (cli : PromptFn) (max_actions : Nat)
    (act : Nat → Thread → Action)
    (hstep : ∀ i th, step i th = .Right (act i th))
    (hnd : ∀ i th, (act i th).is_done = false)
    (hexec : ∀ i th, ∃ a1, execute_action cli (act i th) = .ok a1) :
    ∀ fuel i th, ∃ t1,
      loopFrom (.ok step) cli max_actions fuel i th =
        .ok (.Left (exhaustMsg max_actions), t1) ∧
      t1.actions.length = th.actions.length + fuel := by
  intro fuel
  induction fuel with
  | zero => intro i th; exact ⟨th, by simp [loopFrom]⟩
  | succ fuel ih =>
      intro i th
      obtain ⟨a1, ha1⟩ := hexec i th
      obtain ⟨t1, ht1, hlen⟩ := ih (i + 1) (th.add a1)
      have hd : a1.is_done = false := by
        unfold Action.is_done
        rw [execute_action_kind ha1]
        have hk := hnd i th
        unfold Action.is_done at hk
        exact hk
      refine ⟨t1, ?_, ?_⟩
      · simp [loopFrom, hstep, ha1, hd, ht1]
      · simp only [hlen, Thread.add, List.length_append, List.length_cons,
          List.length_nil]
        omega

/-- C1. For every context whose driver lookup yields a step function
that returns Add(1,2) on its first call and Done(output=3) on its
second, and every thread with an empty history, `loop` (with any budget
of at least 2) returns Success of the executed Done action with output
3, and the final thread holds exactly 2 actions in order: the executed
Add followed by the executed Done. -/
theorem C1_loop_success (ctx : Ctx) (step : StepFn) (max_actions : Nat)
    (t : Thread) (c1 c2 : String)
    (hdrv : get_driver ctx.driver ctx.active_driver ctx.registry = .ok step)
    (h0 : ∀ th, step 0 th = .Right (Action.mk c1 (.add 1 2) none))
    (h1 : ∀ th, step 1 th = .Right (Action.mk c2 (.done (some (.num 3))) none))
    (ht : t.actions = []) (hn : 2 ≤ max_actions) :
    loopCtx ctx max_actions t =
      .ok (.Right (Action.mk c2 (.done (some (.num 3))) (some (.num 3))),
        Thread.mk t.id t.query
          [Action.mk c1 (.add 1 2) (some (.num (1 + 2))),
           Action.mk c2 (.done (some (.num 3))) (some (.num 3))]) := by
  obtain ⟨k, rfl⟩ : ∃ k, max_actions = k + 2 := ⟨max_actions - 2, by omega⟩
  simp [loopCtx, loop, loopFrom, hdrv, h0, h1, execute_action, actionIo,
    Action.executeSt, computeResult, Action.is_done, Thread.add, ht]

/-- Witness for C1: a concrete context with a fake two-step driver and a
fresh thread, run with the default budget 10. -/
theorem C1_loop_success_witness :
    loopCtx
      ⟨some "openai", "openai",
        fun _ => fun i _ =>
          if i = 0 then .Right (Action.mk "" (.add 1 2) none)
          else .Right (Action.mk "" (.done (some (.num 3))) none),
        fun _ => none⟩ 10 ⟨"abc123", "add 1 and 2", []⟩ =
      .ok (.Right (Action.mk "" (.done (some (.num 3))) (some (.num 3))),
        Thread.mk "abc123" "add 1 and 2"
          [Action.mk "" (.add 1 2) (some (.num (1 + 2))),
           Action.mk "" (.done (some (.num 3))) (some (.num 3))]) :=
  C1_loop_success
    ⟨some "openai", "openai",
      fun _ => fun i _ =>
        if i = 0 then .Right (Action.mk "" (.add 1 2) none)
        else .Right (Action.mk "" (.done (some (.num 3))) none),
      fun _ => none⟩
    (fun i _ =>
      if i = 0 then .Right (Action.mk "" (.add 1 2) none)
      else .Right (Action.mk "" (.done (some (.num 3))) none))
    10 ⟨"abc123", "add 1 and 2", []⟩ "" ""
    rfl (fun _ => rfl) (fun _ => rfl) rfl (by decide)

/-- C2. For every context whose driver lookup yields a step function
that always returns a successfully-executing non-Done action, the loop
with budget n terminates with a Failure carrying the exhaustion message
(which names the limit n, being "Exceeded maximum of n actions without
reaching completion"), and exactly n actions have been appended to the
thread. -/
theorem C2_loop_budget (ctx : Ctx) (step : StepFn) (max_actions : Nat)
    (t : Thread) (act : Nat → Thread → Action)
    (hdrv : get_driver ctx.driver ctx.active_driver ctx.registry = .ok step)
    (hstep : ∀ i th, step i th = .Right (act i th))
    (hnd : ∀ i th, (act i th).is_done = false)
    (hexec : ∀ i th, ∃ a1, execute_action ctx.prompt (act i th) = .ok a1) :
    ∃ t1, loopCtx ctx max_actions t =
        .ok (.Left (exhaustMsg max_actions), t1) ∧
      t1.actions.length = t.actions.length + max_actions := by
  obtain ⟨t1, h1, h2⟩ :=
    loopFrom_exhaust step ctx.prompt max_actions act hstep hnd hexec
      max_actions 0 t
  exact ⟨t1, by rw [loopCtx, loop, hdrv]; exact h1, h2⟩

/-- Witness for C2: a fake driver that always returns Add(1,1) and a
budget of 3 yields a Failure whose message mentions the limit 3, with
exactly 3 actions appended to an initially empty thread. -/
theorem C2_loop_budget_witness :
    (∃ t1,
      loopCtx
        ⟨some "openai", "openai",
          fun _ => fun _ _ => .Right (Action.mk "" (.add 1 1) none),
          fun _ => none⟩ 3 ⟨"abc123", "count up", []⟩ =
        .ok (.Left (exhaustMsg 3), t1) ∧
      t1.actions.length = 3) ∧
    exhaustMsg 3 =
      "Exceeded maximum of 3 actions without reaching completion" :=
  ⟨C2_loop_budget
    ⟨some "openai", "openai",
      fun _ => fun _ _ => .Right (Action.mk "" (.add 1 1) none),
      fun _ => none⟩
    (fun _ _ => .Right (Action.mk "" (.add 1 1) none))
    3 ⟨"abc123", "count up", []⟩
    (fun _ _ => Action.mk "" (.add 1 1) none)
    rfl (fun _ _ => rfl) (fun _ _ => rfl)
    (fun _ _ => ⟨Action.mk "" (.add 1 1) (some (.num (1 + 1))), rfl⟩),
   rfl⟩

/-- C3. For every context whose driver lookup yields a step function
that fails with "boom" on its first call, the loop returns that Failure
immediately and the thread is returned unchanged: no action has been
appended. -/
theorem C3_loop_driver_failure (ctx : Ctx) (step : StepFn) (max_actions : Nat)
    (t : Thread)
    (hdrv : get_driver ctx.driver ctx.active_driver ctx.registry = .ok step)
    (h0 : ∀ th, step 0 th = .Left "boom") (hn : 0 < max_actions) :
    loopCtx ctx max_actions t = .ok (.Left "boom", t) := by
  obtain ⟨k, rfl⟩ : ∃ k, max_actions = k + 1 := ⟨max_actions - 1, by omega⟩
  simp [loopCtx, loop, loopFrom, hdrv, h0]

/-- Witness for C3: a concrete context with a fake always-failing driver
returns Left "boom" and the untouched thread. -/
theorem C3_loop_driver_failure_witness :
    loopCtx
      ⟨some "openai", "openai",
        fun _ => fun _ _ => .Left "boom", fun _ => none⟩
      10 ⟨"abc123", "task", []⟩ =
      .ok (.Left "boom", ⟨"abc123", "task", []⟩) :=
  C3_loop_driver_failure
    ⟨some "openai", "openai", fun _ => fun _ _ => .Left "boom", fun _ => none⟩
    (fun _ _ => .Left "boom") 10 ⟨"abc123", "task", []⟩
    rfl (fun _ => rfl) (by decide)

/-- C4. Evaluation exhibiting the memoization defect: an action whose
computation returns Python None — Done(output=None), the Done variant
with its default output — re-runs the underlying computation on every
call of `execute`, because the stored None result is indistinguishable
from the unset cache sentinel. Two consecutive `execute` calls run
`_compute_result` twice (the returned values agree, both None), against
the execute docstring, the call-counting test and the claim, which say
the computation runs exactly once. For contrast, the second conjunct
shows an action with a non-None result, Add(2,3), computes once across
two calls as documented. -/
theorem C4_memoization_eval :
    (Action.mk "" (.done none) none).executeTwice none = .ok (none, none, 2) ∧
    (Action.mk "" (.add 2 3) none).executeTwice none =
      .ok (some (.num (2 + 3)), some (.num (2 + 3)), 1) :=
  ⟨rfl, rfl⟩

/-- C5. Executing Divide(a=x, b=0) raises the division-by-zero
ValueError for every x (no infinity is returned), and for every divisor
y that is not zero, executing Divide(a=x, b=y) returns x / y and stores
it in the result slot. -/
theorem C5_divide (x y : ℚ) (c : String) (io : Option PromptFn) (h : y ≠ 0) :
    (Action.mk c (.divide x 0) none).executeSt io =
      .error "Division by zero is not allowed." ∧
    (Action.mk c (.divide x y) none).executeSt io =
      .ok (Action.mk c (.divide x y) (some (.num (x / y))),
        some (.num (x / y)), 1) := by
  constructor
  · simp [Action.executeSt, computeResult]
  · simp [Action.executeSt, computeResult, h]

/-- Witness for C5: dividing 6 by 0 raises, dividing 6 by 3 returns
their quotient. -/
theorem C5_divide_witness :
    (Action.mk "" (.divide 6 0) none).executeSt none =
      .error "Division by zero is not allowed." ∧
    (Action.mk "" (.divide 6 3) none).executeSt none =
      .ok (Action.mk "" (.divide 6 3) (some (.num (6 / 3))),
        some (.num (6 / 3)), 1) :=
  C5_divide 6 3 "" none (by decide)

/-- C6. At any iteration of the loop (any remaining budget, any call
index, any current thread), if the driver returns an action whose
execution raises, the loop stops with a Failure naming the action class
and the underlying exception message, and the failing action is not
appended: the thread is returned exactly as it was. -/
theorem C6_execution_failure (step : StepFn) (cli : PromptFn)
    (max_actions fuel i : Nat) (th : Thread) (a : Action) (e : String)
    (hstep : step i th = .Right a)
    (hexec : execute_action cli a = .error e) :
    loopFrom (.ok step) cli max_actions (fuel + 1) i th =
      .ok (.Left (execErrMsg a e), th) := by
  simp [loopFrom, hstep, hexec]

/-- Witness for C6: a driver returning Divide(1, 0) at the first
iteration makes the loop return the execution Failure naming the Divide
class and the division-by-zero message, with the thread untouched. -/
theorem C6_execution_failure_witness :
    loopFrom (.ok (fun _ _ => .Right (Action.mk "" (.divide 1 0) none)))
      (fun _ => none) 10 10 0 ⟨"abc123", "divide", []⟩ =
      .ok (.Left
        "Error executing action Divide: Division by zero is not allowed.",
        ⟨"abc123", "divide", []⟩) :=
  C6_execution_failure (fun _ _ => .Right (Action.mk "" (.divide 1 0) none))
    (fun _ => none) 10 9 0 ⟨"abc123", "divide", []⟩
    (Action.mk "" (.divide 1 0) none)
    "Division by zero is not allowed." rfl rfl

/-- C7 counterexample: with the driver name "ollama", which is not a key
of the DRIVERS registry, running the loop does not produce a Failure
value at all — it ends in the uncaught ValueError raised by get_driver
(the `Except.error` outcome, whose `isOk` is false), refuting the claim
that the UnknownDriver error is bound to a Failure rather than raised. -/
theorem C7_unknown_driver_counterexample :
    (loopCtx
      ⟨some "ollama", "openai", fun _ => fun _ _ => .Left "unused",
        fun _ => none⟩ 10 ⟨"abc123", "task", []⟩).isOk = false ∧
    loopCtx
      ⟨some "ollama", "openai", fun _ => fun _ _ => .Left "unused",
        fun _ => none⟩ 10 ⟨"abc123", "task", []⟩ =
      .error
        "Unknown driver: ollama. Available drivers: [\x27openai\x27, \x27anthropic\x27]" :=
  ⟨rfl, rfl⟩

/-- C7 amended. For every context whose configured driver name is not a
key of the driver registry, running the loop (with a positive iteration
budget) ends in the descriptive ValueError raised by get_driver, which
propagates out of the loop as an exception instead of being bound to a
Failure value. -/
theorem C7_unknown_driver (ctx : Ctx) (max_actions : Nat) (t : Thread)
    (name : String) (h1 : ctx.driver = some name)
    (h2 : DRIVER_NAMES.contains name = false) (hn : 0 < max_actions) :
    loopCtx ctx max_actions t = .error (unknownDriverMsg name) := by
  obtain ⟨k, rfl⟩ : ∃ k, max_actions = k + 1 := ⟨max_actions - 1, by omega⟩
  have h2' : ¬ name ∈ DRIVER_NAMES := by simpa using h2
  simp [loopCtx, loop, loopFrom, get_driver, h1, h2']

/-- Witness for the amended C7: the concrete unregistered driver name
"ollama". -/
theorem C7_unknown_driver_witness :
    loopCtx
      ⟨some "ollama", "openai", fun _ => fun _ _ => .Left "unused",
        fun _ => none⟩ 10 ⟨"abc123", "task", []⟩ =
      .error (unknownDriverMsg "ollama") :=
  C7_unknown_driver
    ⟨some "ollama", "openai", fun _ => fun _ _ => .Left "unused",
      fun _ => none⟩ 10 ⟨"abc123", "task", []⟩ "ollama"
    rfl (by decide) (by decide)

/-- C8. Store round-trip through one instance: adding a thread and then
getting its id returns Success of that very thread; getting an id that
was never added returns the NotFound Failure; after clear, every id
returns the NotFound Failure. -/
theorem C8_store_roundtrip (s : ThreadInMemoryStore) (m : ThreadsMap)
    (t : Thread) (idA idB : String) (h : m idA = none) :
    s.get (s.add m t) t.id = .Right t ∧
    s.get m idA = .Left (notFoundMsg idA) ∧
    s.get (s.clear m) idB = .Left (notFoundMsg idB) := by
  refine ⟨?_, ?_, ?_⟩
  · simp [ThreadInMemoryStore.get, ThreadInMemoryStore.add]
  · simp [ThreadInMemoryStore.get, h]
  · simp [ThreadInMemoryStore.get, ThreadInMemoryStore.clear]

/-- Witness for C8: a concrete store instance starting from the empty
mapping, a concrete thread, the id "nonexistent" never added, and the
previously valid id after clear. -/
theorem C8_store_roundtrip_witness :
    (ThreadInMemoryStore.mk 0).get
        ((ThreadInMemoryStore.mk 0).add (fun _ => none)
          ⟨"abc123", "query", []⟩) "abc123" =
      .Right ⟨"abc123", "query", []⟩ ∧
    (ThreadInMemoryStore.mk 0).get (fun _ => none) "nonexistent" =
      .Left (notFoundMsg "nonexistent") ∧
    (ThreadInMemoryStore.mk 0).get
        ((ThreadInMemoryStore.mk 0).clear (fun _ => none)) "abc123" =
      .Left (notFoundMsg "abc123") :=
  C8_store_roundtrip (ThreadInMemoryStore.mk 0) (fun _ => none)
    ⟨"abc123", "query", []⟩ "nonexistent" "abc123" rfl

/-- C9. Result monad laws: mapping f then g over a Right equals a Right
of the composition; mapping any f over a Left leaves the Left unchanged;
fold on a Right applies only the success handler and fold on a Left
applies only the failure handler (the value of fold is given entirely by
the one applicable handler, for arbitrary choices of both). -/
theorem C9_monad_laws (T A B E R : Type) (x : T) (e : E) (f : T → A)
    (g : A → B) (on_left : E → R) (on_right : T → R) :
    ((Either.Right x : Either T E).map f).map g =
      (.Right (g (f x)) : Either B E) ∧
    (Either.Left e : Either T E).map f = (.Left e : Either A E) ∧
    (Either.Right x : Either T E).fold on_left on_right = on_right x ∧
    (Either.Left e : Either T E).fold on_left on_right = on_left e :=
  ⟨rfl, rfl, rfl, rfl⟩

/-- C10. The threads mapping of ThreadInMemoryStore is class-level state
shared by every instance: a thread added through one instance is
returned by get through any other instance, and clear through one
instance makes get through any other instance fail with NotFound for
every id. -/
theorem C10_shared_class_state (s1 s2 : ThreadInMemoryStore)
    (m : ThreadsMap) (t : Thread) (tid : String) :
    s2.get (s1.add m t) t.id = .Right t ∧
    s2.get (s1.clear m) tid = .Left (notFoundMsg tid) := by
  refine ⟨?_, ?_⟩
  · simp [ThreadInMemoryStore.get, ThreadInMemoryStore.add]
  · simp [ThreadInMemoryStore.get, ThreadInMemoryStore.clear]

end Ap
